import Mathlib

set_option autoImplicit false

namespace DreamCard

/-! Shallow embedding of the dream_card card-collection browser and editor.

The embedded code is the collection browser script (state variables,
`fetchAndDisplayCards`, `renderPaginationControls`, the control event
listeners, `updateQuantity`, `updateQuantityByInput`) and the user-collection
page script (`displayCollection`, `updateCard`).  DOM containers are modelled
as lists of rendered items, network calls as explicit data, and JavaScript
string/number coercions by small helper functions. -/

/-! JavaScript-semantics helpers -/

/-- JavaScript `String.prototype.trim`: whitespace stripped from both ends.
Stated by structural recursion over the character list so that it evaluates
inside the kernel. -/
def jsTrim (s : String) : String :=
  String.mk (((s.toList.dropWhile Char.isWhitespace).reverse.dropWhile Char.isWhitespace).reverse)

/-- Models the JavaScript idiom `value.trim() || null`: an all-whitespace
string is coerced to null, otherwise the trimmed string is kept. -/
def trimOrNull (s : String) : Option String :=
  if jsTrim s = "" then none else some (jsTrim s)

/-- Value of a decimal digit character. -/
def digitVal (c : Char) : Nat := c.toNat - 48

/-- Value of a hexadecimal digit character. -/
def hexDigitVal (c : Char) : Nat :=
  if c.isDigit then c.toNat - 48
  else if 'a' ≤ c ∧ c ≤ 'f' then c.toNat - 87
  else c.toNat - 55

/-- Whether a character is a hexadecimal digit. -/
def isHexDigitChar (c : Char) : Bool :=
  c.isDigit || ('a' ≤ c && c ≤ 'f') || ('A' ≤ c && c ≤ 'F')

/-- Accumulate a digit list into a natural number with the given base. -/
def digitsToNat (base : Nat) (val : Char → Nat) (ds : List Char) : Nat :=
  ds.foldl (fun n c => base * n + val c) 0

/-- Models JavaScript `parseInt(s)` with no explicit radix: leading whitespace
is skipped, an optional sign is read, a `0x`/`0X` prefix selects base 16, the
longest prefix of digits is converted, and `none` models `NaN` when no digit
is found. -/
def parseIntJs (s : String) : Option Int :=
  let t := (jsTrim s).toList
  let signAndRest : Int × List Char :=
    match t with
    | '-' :: r => (-1, r)
    | '+' :: r => (1, r)
    | r => (1, r)
  let sign := signAndRest.1
  let rest := signAndRest.2
  match rest with
  | '0' :: x :: r2 =>
    if x = 'x' ∨ x = 'X' then
      let hs := r2.takeWhile isHexDigitChar
      if hs = [] then none
      else some (sign * (digitsToNat 16 hexDigitVal hs : Nat))
    else
      let ds := rest.takeWhile Char.isDigit
      if ds = [] then none else some (sign * (digitsToNat 10 digitVal ds : Nat))
  | _ =>
    let ds := rest.takeWhile Char.isDigit
    if ds = [] then none else some (sign * (digitsToNat 10 digitVal ds : Nat))

/-- Uppercase hexadecimal digit character for a value below 16. -/
def hexDigitUpper (n : Nat) : Char :=
  if n < 10 then Char.ofNat (48 + n) else Char.ofNat (55 + n)

/-- Percent-encoding of one byte, uppercase hexadecimal. -/
def percentEncodeByte (b : Nat) : String :=
  "%" ++ String.singleton (hexDigitUpper (b / 16 % 16)) ++ String.singleton (hexDigitUpper (b % 16))

/-- Encoding of one character under `application/x-www-form-urlencoded`, the
serialization used by `URLSearchParams`: ASCII alphanumerics and `*-._` are
kept, space becomes `+`, and every other character is percent-encoded byte by
byte in UTF-8. -/
def formEncodeChar (c : Char) : String :=
  if c.isAlphanum ∧ c.toNat < 128 then String.singleton c
  else if c = '*' ∨ c = '-' ∨ c = '.' ∨ c = '_' then String.singleton c
  else if c = ' ' then "+"
  else String.join ((String.utf8EncodeChar c).map (fun b => percentEncodeByte b.toNat))

/-- Encoding of a full string under `application/x-www-form-urlencoded`. -/
def formEncode (s : String) : String :=
  String.join (s.toList.map formEncodeChar)

/-- Serialization of a `URLSearchParams` list of key-value pairs: the
`key=value` fragments joined with ampersands. -/
def encodeQueryParams : List (String × String) → String
  | [] => ""
  | [p] => formEncode p.1 ++ "=" ++ formEncode p.2
  | p :: rest => formEncode p.1 ++ "=" ++ formEncode p.2 ++ "&" ++ encodeQueryParams rest

/-! Data model -/

/-- A card record as delivered by the backend JSON.  `image_url` is optional;
absence renders a placeholder. -/
structure Card where
  id : String
  card_name : String
  rarity : String
  point_worth : Int
  quantity : Int
  date_got_in_stock : String
  image_url : Option String
  deriving Repr, DecidableEq

/-- Pagination metadata block of a list-cards response. -/
structure Pagination where
  current_page : Int
  total_pages : Int
  total_items : Int
  per_page : Int
  deriving Repr, DecidableEq

/-- A successful (HTTP 2xx, valid JSON object) list-cards response body.
`cards = none` models a body whose `cards` field is missing or not an array;
`pagination = none` models missing or malformed pagination metadata. -/
structure ListResponse where
  cards : Option (List Card)
  pagination : Option Pagination
  deriving Repr, DecidableEq

/-- The browser script state variables `currentPage`, `itemsPerPage`,
`currentSortBy`, `currentSortOrder`, `currentCollectionName` and
`currentSearchQuery`.  `none` models the JavaScript `null` stored by the
`value.trim() || null` idiom. -/
structure ViewState where
  currentPage : Int
  itemsPerPage : Int
  currentSortBy : String
  currentSortOrder : String
  currentCollectionName : Option String
  currentSearchQuery : Option String
  deriving Repr, DecidableEq

/-- The displayed fields of one card element rendered into the card display
area by `fetchAndDisplayCards`. -/
structure RenderedCard where
  id : String
  card_name : String
  rarity : String
  point_worth : Int
  date_got_in_stock : String
  quantity : Int
  hasImage : Bool
  deriving Repr, DecidableEq

/-- One child of the card display area: either a rendered card element
carrying `data-card-id`, or a plain message paragraph. -/
inductive RenderedItem where
  | card (rc : RenderedCard)
  | message (text : String)
  deriving Repr, DecidableEq

/-- Projection of a fetched card record to its rendered element. -/
def renderCard (c : Card) : RenderedCard :=
  { id := c.id
    card_name := c.card_name
    rarity := c.rarity
    point_worth := c.point_worth
    date_got_in_stock := c.date_got_in_stock
    quantity := c.quantity
    hasImage := c.image_url.isSome }

/-- One child of a pagination controls container. -/
inductive PagItem where
  | button (label : String) (targetPage : Int) (disabled : Bool)
  | pageText (text : String)
  deriving Repr, DecidableEq

/-- The whole client state of the browser page: script state variables, the
card display area, the error banner, the loading indicator and the pagination
controls container (top and bottom containers receive identical children, so
one list models both). -/
structure BrowserState where
  view : ViewState
  totalPages : Int
  content : List RenderedItem
  errorMessage : Option String
  loadingVisible : Bool
  pagControls : List PagItem
  deriving Repr, DecidableEq

/-! Control event listeners (the ViewState mutators) -/

/-- The fetch-collection button listener: stores `input.value.trim() || null`
and resets the page to 1 before refetching. -/
def fetchCollectionClick (inputValue : String) (s : ViewState) : ViewState :=
  { s with currentCollectionName := trimOrNull inputValue, currentPage := 1 }

/-- The search button listener: stores `input.value.trim() || null` and
resets the page to 1 before refetching. -/
def searchClick (inputValue : String) (s : ViewState) : ViewState :=
  { s with currentSearchQuery := trimOrNull inputValue, currentPage := 1 }

/-- The clear-search button listener: clears the query and resets the page
to 1 before refetching. -/
def clearSearchClick (s : ViewState) : ViewState :=
  { s with currentSearchQuery := none, currentPage := 1 }

/-- The sort-by select listener: stores the selected value and resets the
page to 1 before refetching. -/
def sortByChange (v : String) (s : ViewState) : ViewState :=
  { s with currentSortBy := v, currentPage := 1 }

/-- The sort-order select listener: stores the selected value and resets the
page to 1 before refetching. -/
def sortOrderChange (v : String) (s : ViewState) : ViewState :=
  { s with currentSortOrder := v, currentPage := 1 }

/-- The per-page select listener: stores `parseInt(value, 10)` of the select
value (its options are decimal numerals, so the parse is the numeral value)
and resets the page to 1 before refetching. -/
def perPageChange (n : Int) (s : ViewState) : ViewState :=
  { s with itemsPerPage := n, currentPage := 1 }

/-- A pagination button listener created by
`renderPaginationControls.createButton`: it assigns `currentPage = page` and
refetches, touching no other state variable. -/
def paginationClick (page : Int) (s : ViewState) : ViewState :=
  { s with currentPage := page }

/-! URL construction inside fetchAndDisplayCards -/

/-- Base URL of the storage API as hardcoded in the browser script. -/
def baseUrl : String := "http://localhost:8080/gacha/api/v1/storage"

/-- Outcome of the URL-building prefix of `fetchAndDisplayCards`: either the
fetch is issued at the built URL, or a JavaScript exception is thrown before
any network call. -/
inductive FetchUrlOutcome where
  | issued (url : String)
  | threw (message : String)
  deriving Repr, DecidableEq

/-- The URL-building prefix of `fetchAndDisplayCards`, up to the `fetch`
call.  It mirrors the source statement by statement: when
`currentCollectionName` is null it is first filled from the page URL query
parameter `collectionName` (`urlCollectionParam` here); if it is still null
the script calls `parseUrlParams()`, a function defined nowhere, so a
`ReferenceError` is thrown.  `URLSearchParams` receives `page`, `per_page`,
`sort_by`, `sort_order`, then `collectionName` and `search_query` when
non-empty after trimming.  The built query string is bound with `const url`;
afterwards, when a search query is present, the script executes
`url += ...`, an assignment to a constant, which throws a `TypeError` before
the fetch. -/
def fetchCardsUrl (urlCollectionParam : Option String) (s : ViewState) : FetchUrlOutcome :=
  let collectionName : Option String :=
    match s.currentCollectionName with
    | some n => some n
    | none => urlCollectionParam
  match collectionName with
  | none => .threw "ReferenceError: parseUrlParams is not defined"
  | some coll =>
    let ps : List (String × String) :=
      [("page", toString s.currentPage), ("per_page", toString s.itemsPerPage),
       ("sort_by", s.currentSortBy), ("sort_order", s.currentSortOrder)]
    let ps := if jsTrim coll ≠ "" then ps ++ [("collectionName", jsTrim coll)] else ps
    let hasSearch : Bool :=
      match s.currentSearchQuery with
      | some q => jsTrim q ≠ ""
      | none => false
    let ps := if hasSearch then ps ++ [("search_query", jsTrim (s.currentSearchQuery.getD ""))] else ps
    let url := baseUrl ++ "/cards?" ++ encodeQueryParams ps
    if hasSearch then .threw "TypeError: Assignment to constant variable." else .issued url

/-! Error message construction -/

/-- The `detail` field of an error response body: a JSON string, array or
object (arrays and objects carry their `JSON.stringify` text). -/
inductive JsDetail where
  | str (s : String)
  | arr (json : String)
  | obj (json : String)
  deriving Repr, DecidableEq

/-- JavaScript truthiness of a `detail` value: the empty string is falsy,
arrays and objects are always truthy. -/
def JsDetail.truthy : JsDetail → Bool
  | .str s => s ≠ ""
  | .arr _ => true
  | .obj _ => true

/-- The text appended for a truthy `detail`:
`typeof detail === "string" ? detail : JSON.stringify(detail)`. -/
def JsDetail.asMessage : JsDetail → String
  | .str s => s
  | .arr j => j
  | .obj j => j

/-- The error message thrown by `fetchAndDisplayCards` for a non-2xx
response whose body is valid JSON: a status line, extended with the server
`detail` when that field is present and truthy. -/
def fetchCardsErrorMsg (status : Int) (detail : Option JsDetail) : String :=
  let base := "Error fetching cards. Status: " ++ toString status
  match detail with
  | some d => if d.truthy then base ++ ", Server says: " ++ d.asMessage else base
  | none => base

/-- The error message thrown by `updateQuantity` for a non-2xx response:
`errorData.detail || "Error: {status}"`, modelled for a string-or-absent
`detail` (the empty string is falsy and falls back to the generic text). -/
def updateQuantityErrorMsg (status : Int) (detail : Option String) : String :=
  match detail with
  | some s => if s ≠ "" then s else "Error: " ++ toString status
  | none => "Error: " ++ toString status

/-! Fetch lifecycle on the browser page -/

/-- Children rendered into a pagination controls container from one
pagination metadata object: nothing at all when `total_pages <= 0`,
otherwise a Previous button (disabled on page 1), a page info text, and a
Next button (disabled on the last page). -/
def renderPaginationControls (p : Pagination) : List PagItem :=
  if p.total_pages ≤ 0 then []
  else
    [ .button "Previous" (p.current_page - 1) (p.current_page == 1),
      .pageText ("Page " ++ toString p.current_page ++ " of " ++ toString p.total_pages),
      .button "Next" (p.current_page + 1) (p.current_page == p.total_pages) ]

/-- The `displayError` helper of the browser page: shows the message, hides
the loading indicator, clears the card display area, and calls
`renderPaginationControls()` with no argument, which empties both pagination
containers. -/
def displayError (msg : String) (st : BrowserState) : BrowserState :=
  { st with errorMessage := some msg, loadingVisible := false, content := [], pagControls := [] }

/-- The synchronous prefix of `fetchAndDisplayCards`: the loading indicator
is shown, the error banner hidden, and the card display area cleared before
the request is awaited. -/
def beginFetch (st : BrowserState) : BrowserState :=
  { st with loadingVisible := true, errorMessage := none, content := [] }

/-- Resumption of `fetchAndDisplayCards` when its response resolves with 2xx
and a JSON object body.  A missing or non-array `cards` field and an empty
`cards` array each replace the display area with a message paragraph and
zero the local `totalPages`; a non-empty array appends one card element per
record (the area was cleared when this fetch began, but a concurrent fetch
may have written it since).  Pagination controls are rebuilt from the
response metadata when present, else from a fallback record whose
`total_pages` is the local `totalPages`. -/
def resolveFetchSuccess (resp : ListResponse) (st : BrowserState) : BrowserState :=
  let newContent : List RenderedItem :=
    match resp.cards with
    | none => [.message "No cards data found in the expected format (array)."]
    | some [] => [.message "No cards found matching your criteria."]
    | some cs => st.content ++ cs.map (fun c => .card (renderCard c))
  let newTotalPages : Int :=
    match resp.cards with
    | none => 0
    | some [] => 0
    | some _ =>
      match resp.pagination with
      | some p => p.total_pages
      | none => 0
  let pag : List PagItem :=
    match resp.pagination with
    | some p => renderPaginationControls p
    | none =>
      renderPaginationControls
        { total_items := (resp.cards.getD []).length, total_pages := newTotalPages,
          current_page := st.view.currentPage, per_page := st.view.itemsPerPage }
  { st with loadingVisible := false, content := newContent,
            totalPages := newTotalPages, pagControls := pag }

/-- Resumption of `fetchAndDisplayCards` when the response is non-2xx with a
valid JSON body: the thrown message reaches the catch block, which calls
`displayError` with a fixed prefix. -/
def resolveFetchFailure (status : Int) (detail : Option JsDetail) (st : BrowserState) : BrowserState :=
  displayError ("Failed to load cards. " ++ fetchCardsErrorMsg status detail) st

/-! Quantity and card updates -/

/-- Identifiers carried by the card elements of a display area, in order. -/
def contentCardIds : List RenderedItem → List String
  | [] => []
  | .card rc :: rest => rc.id :: contentCardIds rest
  | .message _ :: rest => contentCardIds rest

/-- The DOM patch of the `updateQuantity` success path:
`querySelector("[data-card-id=...]")` returns the first element whose
`data-card-id` matches, and its quantity text is set to the server value;
with no match nothing is touched. -/
def patchQuantityInContent (documentId : String) (q : Int) : List RenderedItem → List RenderedItem
  | [] => []
  | .card rc :: rest =>
    if rc.id = documentId then .card { rc with quantity := q } :: rest
    else .card rc :: patchQuantityInContent documentId q rest
  | .message m :: rest => .message m :: patchQuantityInContent documentId q rest

/-- The success path of `updateQuantity` after the PATCH response parses:
the matching card element gets the returned quantity and nothing else on the
page changes.  The Boolean records whether the handler began a list refetch;
the source never calls `fetchAndDisplayCards` here, so it is false. -/
def updateQuantityApply (documentId : String) (updatedCard : Card) (st : BrowserState) :
    BrowserState × Bool :=
  ({ st with content := patchQuantityInContent documentId updatedCard.quantity st.content }, false)

/-- Outcome of the `updateCard` success path on the user-collection page. -/
structure UpdateCardOutcome where
  cards : List Card
  redisplayed : Bool
  modalClosed : Bool
  notice : String
  deriving Repr, DecidableEq

/-- The success path of `updateCard` on the user-collection page: the index
of the first card with the submitted id is looked up with `findIndex`; when
found, that slot is overwritten with the server record and the collection is
redisplayed; when absent, the array stays as it is.  Either way the modal is
closed and a success message shown. -/
def updateCardApply (cardId : String) (updatedCard : Card) (currentCards : List Card) :
    UpdateCardOutcome :=
  match currentCards.findIdx? (fun c => c.id == cardId) with
  | some i =>
    { cards := currentCards.set i updatedCard, redisplayed := true,
      modalClosed := true, notice := "Card updated successfully!" }
  | none =>
    { cards := currentCards, redisplayed := false,
      modalClosed := true, notice := "Card updated successfully!" }

/-- A network call issued by the quantity controls. -/
inductive NetCall where
  | patchQuantity (cardId : String) (quantityChange : Int) (collectionName : Option String)
  | putCard (cardId : String) (quantity : Int) (collectionName : Option String)
  deriving Repr, DecidableEq

/-- Observable run of `updateQuantityByInput`: the network calls issued, in
order, and the validation alerts raised. -/
structure QtyInputRun where
  calls : List NetCall
  alerts : List String
  deriving Repr, DecidableEq

/-- The `updateQuantityByInput` handler behind the Set button, with network
operations assumed to succeed.  It first computes `parseInt(inputValue)`;
`NaN` alerts and stops.  Otherwise it awaits `updateQuantity`, which issues
a PATCH with the parsed amount as a relative `quantity_change`.  It then
re-parses the same input as `newQuantity`; a negative value alerts and
stops.  Otherwise a PUT setting the absolute quantity is issued. -/
def updateQuantityByInput (documentId : String) (inputValue : String)
    (collectionName : Option String) : QtyInputRun :=
  match parseIntJs inputValue with
  | none => { calls := [], alerts := ["Please enter a valid number for quantity change."] }
  | some amount =>
    let patchCall := NetCall.patchQuantity documentId amount collectionName
    if amount < 0 then
      { calls := [patchCall], alerts := ["Please enter a valid non-negative number for quantity."] }
    else
      { calls := [patchCall, .putCard documentId amount collectionName], alerts := [] }

/-! Collection counters on the user-collection page -/

/-- JavaScript `Set.add` modelled on lists: append the element when it is
not already present (insertion order preserved, as in a JS `Set`). -/
def setAdd (s : List String) (x : String) : List String :=
  if x ∈ s then s else s ++ [x]

/-- The counters written by `displayCollection`: for a missing or empty list
both counters show `0`; otherwise the total is
`cards.reduce((sum, card) => sum + card.quantity, 0)` and the unique count is
the size of a `Set` fed every `card.id`. -/
def collectionStats (cards : Option (List Card)) : String × String :=
  match cards with
  | none => ("0", "0")
  | some cs =>
    if cs.length = 0 then ("0", "0")
    else
      (toString (cs.foldl (fun sum c => sum + c.quantity) (0 : Int)),
       toString (cs.foldl (fun ids c => setAdd ids c.id) []).length)

/-! Helper lemmas -/

theorem setAdd_nodup {s : List String} (x : String) (h : s.Nodup) : (setAdd s x).Nodup := by
  unfold setAdd
  by_cases hx : x ∈ s
  · simp [hx, h]
  · simp [hx, List.nodup_append, h]

theorem setAdd_toFinset (s : List String) (x : String) :
    (setAdd s x).toFinset = insert x s.toFinset := by
  unfold setAdd
  by_cases hx : x ∈ s
  · simp [hx, Finset.insert_eq_self.mpr (List.mem_toFinset.mpr hx)]
  · simp [hx, List.toFinset_append]
    rw [Finset.union_comm]
    rfl

theorem foldl_setAdd_nodup (l : List String) :
    ∀ s : List String, s.Nodup → (l.foldl setAdd s).Nodup := by
  induction l with
  | nil => intro s hs; simpa using hs
  | cons a l ih => intro s hs; exact ih (setAdd s a) (setAdd_nodup a hs)

theorem foldl_setAdd_toFinset (l : List String) :
    ∀ s : List String, (l.foldl setAdd s).toFinset = s.toFinset ∪ l.toFinset := by
  induction l with
  | nil => intro s; simp
  | cons a l ih =>
    intro s
    rw [List.foldl_cons, ih, setAdd_toFinset, List.toFinset_cons]
    rw [Finset.insert_union, Finset.union_insert]

theorem quantity_foldl_eq_sum (cs : List Card) :
    cs.foldl (fun sum c => sum + c.quantity) (0 : Int) = (cs.map (fun c => c.quantity)).sum := by
  rw [List.sum_eq_foldl, List.foldl_map]

theorem id_fold_count_eq_distinct (cs : List Card) :
    (cs.foldl (fun ids c => setAdd ids c.id) []).length
      = (cs.map (fun c => c.id)).toFinset.card := by
  have hfold : cs.foldl (fun ids c => setAdd ids c.id) []
      = (cs.map (fun c => c.id)).foldl setAdd [] := (List.foldl_map _ _ _ _).symm
  rw [hfold]
  have hnd : ((cs.map (fun c => c.id)).foldl setAdd []).Nodup :=
    foldl_setAdd_nodup _ [] List.nodup_nil
  rw [← List.toFinset_card_of_nodup hnd, foldl_setAdd_toFinset]
  simp

/-- Characterization of the quantity patch on one rendered item: the card
whose identifier matches gets the new quantity, everything else stays. -/
def quantityPatchedItem (documentId : String) (q : Int) : RenderedItem → RenderedItem
  | .card rc => if rc.id = documentId then .card { rc with quantity := q } else .card rc
  | .message m => .message m

theorem patch_of_not_mem (documentId : String) (q : Int) :
    ∀ l : List RenderedItem, documentId ∉ contentCardIds l →
      patchQuantityInContent documentId q l = l := by
  intro l
  induction l with
  | nil => intro _; rfl
  | cons it rest ih =>
    intro h
    cases it with
    | card rc =>
      have hne : rc.id ≠ documentId := by
        intro he; exact h (by simp [contentCardIds, he])
      have hrest : documentId ∉ contentCardIds rest := by
        intro hm; exact h (by simp [contentCardIds, hm])
      simp [patchQuantityInContent, hne, ih hrest]
    | message m =>
      have hrest : documentId ∉ contentCardIds rest := by
        intro hm; exact h (by simp [contentCardIds, hm])
      simp [patchQuantityInContent, ih hrest]

theorem map_patched_of_not_mem (documentId : String) (q : Int) :
    ∀ l : List RenderedItem, documentId ∉ contentCardIds l →
      l.map (quantityPatchedItem documentId q) = l := by
  intro l
  induction l with
  | nil => intro _; rfl
  | cons it rest ih =>
    intro h
    cases it with
    | card rc =>
      have hne : rc.id ≠ documentId := by
        intro he; exact h (by simp [contentCardIds, he])
      have hrest : documentId ∉ contentCardIds rest := by
        intro hm; exact h (by simp [contentCardIds, hm])
      simp [quantityPatchedItem, hne, ih hrest]
    | message m =>
      have hrest : documentId ∉ contentCardIds rest := by
        intro hm; exact h (by simp [contentCardIds, hm])
      simp [quantityPatchedItem, ih hrest]

theorem patch_eq_map_of_nodup (documentId : String) (q : Int) :
    ∀ l : List RenderedItem, (contentCardIds l).Nodup →
      patchQuantityInContent documentId q l = l.map (quantityPatchedItem documentId q) := by
  intro l
  induction l with
  | nil => intro _; rfl
  | cons it rest ih =>
    intro h
    cases it with
    | card rc =>
      have h2 : (contentCardIds rest).Nodup := by
        have := h
        simp [contentCardIds] at this
        exact this.2
      by_cases he : rc.id = documentId
      · have hni : documentId ∉ contentCardIds rest := by
          have := h
          simp [contentCardIds] at this
          rw [← he]
          exact this.1
        simp [patchQuantityInContent, quantityPatchedItem, he,
              map_patched_of_not_mem documentId q rest hni]
      · simp [patchQuantityInContent, quantityPatchedItem, he, ih h2]
    | message m =>
      have h2 : (contentCardIds rest).Nodup := by simpa [contentCardIds] using h
      simp [patchQuantityInContent, quantityPatchedItem, ih h2]

theorem findIdx_none_of_no_match (cardId : String) :
    ∀ cs : List Card, (∀ c ∈ cs, c.id ≠ cardId) →
      cs.findIdx? (fun c => c.id == cardId) = none := by
  intro cs
  induction cs with
  | nil => intro _; rfl
  | cons c rest ih =>
    intro h
    have hc : (c.id == cardId) = false := by
      simp
      exact h c (by simp)
    rw [List.findIdx?_cons, hc, if_neg (by simp), List.findIdx?_succ,
        ih (fun c' hc' => h c' (by simp [hc']))]
    rfl

theorem updateCardApply_cons (cardId : String) (u c : Card) (cs : List Card) :
    updateCardApply cardId u (c :: cs) =
      (if c.id = cardId then
        { cards := u :: cs, redisplayed := true, modalClosed := true,
          notice := "Card updated successfully!" }
      else
        { updateCardApply cardId u cs with
            cards := c :: (updateCardApply cardId u cs).cards }) := by
  by_cases he : c.id = cardId
  · simp [updateCardApply, List.findIdx?_cons, he]
  · have hc : (c.id == cardId) = false := by simpa using he
    rw [if_neg he]
    unfold updateCardApply
    rw [List.findIdx?_cons, hc, if_neg (by simp), List.findIdx?_succ]
    cases hfi : cs.findIdx? (fun c => c.id == cardId) with
    | none => simp
    | some i => simp

theorem map_replace_of_no_match (cardId : String) (u : Card) :
    ∀ cs : List Card, (∀ c ∈ cs, c.id ≠ cardId) →
      cs.map (fun c => if c.id = cardId then u else c) = cs := by
  intro cs
  induction cs with
  | nil => intro _; rfl
  | cons c rest ih =>
    intro h
    have hc : c.id ≠ cardId := h c (by simp)
    simp only [List.map_cons, if_neg hc]
    rw [ih (fun c' hc' => h c' (by simp [hc']))]

theorem updateCardApply_eq_map_of_nodup (cardId : String) (u : Card) :
    ∀ cs : List Card, (cs.map (fun c => c.id)).Nodup →
      (updateCardApply cardId u cs).cards
        = cs.map (fun c => if c.id = cardId then u else c) := by
  intro cs
  induction cs with
  | nil => intro _; rfl
  | cons c rest ih =>
    intro h
    simp only [List.map_cons, List.nodup_cons] at h
    rw [updateCardApply_cons]
    by_cases he : c.id = cardId
    · rw [if_pos he]
      have hno : ∀ c' ∈ rest, c'.id ≠ cardId := by
        intro c' hc' heq
        apply h.1
        rw [he, ← heq]
        exact List.mem_map_of_mem (fun c => c.id) hc'
      simp only [List.map_cons, if_pos he]
      rw [map_replace_of_no_match cardId u rest hno]
    · rw [if_neg he]
      simp only [List.map_cons, if_neg he]
      rw [ih h.2]

/-! Claim theorems -/

/-- C5: every filter, sort, search or page-size listener stores its value and
resets the current page to 1 before the refetch it triggers, while a
pagination button assigns only the current page and leaves every other state
variable unchanged. -/
theorem mutatorsResetPageOnly (s : ViewState) (v : String) (n m : Int) :
    (fetchCollectionClick v s).currentPage = 1 ∧
    (searchClick v s).currentPage = 1 ∧
    (clearSearchClick s).currentPage = 1 ∧
    (sortByChange v s).currentPage = 1 ∧
    (sortOrderChange v s).currentPage = 1 ∧
    (perPageChange n s).currentPage = 1 ∧
    (paginationClick m s).currentPage = m ∧
    (paginationClick m s).currentCollectionName = s.currentCollectionName ∧
    (paginationClick m s).currentSearchQuery = s.currentSearchQuery ∧
    (paginationClick m s).currentSortBy = s.currentSortBy ∧
    (paginationClick m s).currentSortOrder = s.currentSortOrder ∧
    (paginationClick m s).itemsPerPage = s.itemsPerPage :=
  ⟨rfl, rfl, rfl, rfl, rfl, rfl, rfl, rfl, rfl, rfl, rfl, rfl⟩

/-- C9: the total counter of the user-collection view equals the sum of the
quantity fields and the unique counter equals the number of distinct card
identifiers; a missing or empty list shows 0 for both. -/
theorem collectionCounters (cards : Option (List Card)) :
    collectionStats cards =
      (toString (((cards.getD []).map (fun c => c.quantity)).sum),
       toString ((cards.getD []).map (fun c => c.id)).toFinset.card) := by
  match cards with
  | none => rfl
  | some cs =>
    cases cs with
    | nil => rfl
    | cons c rest =>
      simp only [collectionStats, Option.getD_some, List.length_cons]
      rw [if_neg (by simp)]
      rw [quantity_foldl_eq_sum, id_fold_count_eq_distinct]

/-- C7: for a non-2xx response whose JSON body carries a non-empty string
`detail`, the surfaced error text of the quantity PATCH handler is exactly
the detail, and the list-fetch handler appends the detail to its message, so
neither shows the generic fallback; with no `detail`, both handlers show a
generic message carrying the HTTP status. -/
theorem errorDetailSurfaced (status : Int) (s : String) (h : s ≠ "") :
    updateQuantityErrorMsg status (some s) = s ∧
    fetchCardsErrorMsg status (some (.str s))
      = "Error fetching cards. Status: " ++ toString status ++ ", Server says: " ++ s ∧
    updateQuantityErrorMsg status none = "Error: " ++ toString status ∧
    fetchCardsErrorMsg status none = "Error fetching cards. Status: " ++ toString status ∧
    fetchCardsErrorMsg status (some (.str s)) ≠ fetchCardsErrorMsg status none := by
  refine ⟨by simp [updateQuantityErrorMsg, h], ?_, rfl, rfl, ?_⟩
  · simp [fetchCardsErrorMsg, JsDetail.truthy, JsDetail.asMessage, h]
  · simp only [fetchCardsErrorMsg, JsDetail.truthy, JsDetail.asMessage, ne_eq,
               decide_not]
    rw [if_pos (by simpa using h)]
    intro he
    have hl := congrArg String.length he
    have hsep : (", Server says: " : String).length = 15 := rfl
    simp only [String.length_append] at hl
    omega

/-- C7 witness at status 500 and detail text `db unavailable`. -/
theorem errorDetailSurfacedWitness :
    updateQuantityErrorMsg 500 (some "db unavailable") = "db unavailable" ∧
    fetchCardsErrorMsg 500 (some (.str "db unavailable"))
      = "Error fetching cards. Status: 500, Server says: db unavailable" ∧
    updateQuantityErrorMsg 500 none = "Error: 500" ∧
    fetchCardsErrorMsg 500 none = "Error fetching cards. Status: 500" ∧
    fetchCardsErrorMsg 500 (some (.str "db unavailable")) ≠ fetchCardsErrorMsg 500 none := by
  have h := errorDetailSurfaced 500 "db unavailable" (by decide)
  exact ⟨h.1, h.2.1, h.2.2.1, h.2.2.2.1, h.2.2.2.2⟩

/-- C2: the set-absolute-quantity handler at the inputs named by the
specification.  For `-1` it issues the relative PATCH with change `-1`
before its non-negative check alerts, so a network call is made; for `abc`
it alerts with no network call; for `0` it issues the PATCH and then the PUT
setting the absolute quantity. -/
theorem setQuantityInputRuns :
    (updateQuantityByInput "c1" "-1" none).calls = [.patchQuantity "c1" (-1) none] ∧
    (updateQuantityByInput "c1" "-1" none).calls ≠ [] ∧
    (updateQuantityByInput "c1" "-1" none).alerts
      = ["Please enter a valid non-negative number for quantity."] ∧
    (updateQuantityByInput "c1" "abc" none).calls = [] ∧
    (updateQuantityByInput "c1" "abc" none).alerts
      = ["Please enter a valid number for quantity change."] ∧
    (updateQuantityByInput "c1" "0" none).calls
      = [.patchQuantity "c1" 0 none, .putCard "c1" 0 none] := by
  refine ⟨by decide, by decide, by decide, by decide, by decide, by decide⟩

/-- C3: outcomes of the URL-building prefix of `fetchAndDisplayCards`.  With
a collection name and no search query the fetch is issued at the URL holding
exactly the form-encoded parameters; with a non-empty search query the
reassignment of the constant `url` throws a TypeError before the fetch; with
no collection name anywhere the call to the undefined `parseUrlParams`
throws a ReferenceError before the fetch. -/
theorem fetchUrlOutcomes :
    fetchCardsUrl none
        { currentPage := 2, itemsPerPage := 10, currentSortBy := "point_worth",
          currentSortOrder := "asc", currentCollectionName := some "My Cards",
          currentSearchQuery := none }
      = .issued "http://localhost:8080/gacha/api/v1/storage/cards?page=2&per_page=10&sort_by=point_worth&sort_order=asc&collectionName=My+Cards" ∧
    fetchCardsUrl none
        { currentPage := 1, itemsPerPage := 20, currentSortBy := "card_name",
          currentSortOrder := "desc", currentCollectionName := some "pokemon",
          currentSearchQuery := some "pika" }
      = .threw "TypeError: Assignment to constant variable." ∧
    fetchCardsUrl none
        { currentPage := 1, itemsPerPage := 10, currentSortBy := "name",
          currentSortOrder := "asc", currentCollectionName := none,
          currentSearchQuery := none }
      = .threw "ReferenceError: parseUrlParams is not defined" := by
  refine ⟨by decide, by decide, by decide⟩

/-- A browser state holding one successfully fetched and rendered card, used
to exercise a failed refetch. -/
def goodState : BrowserState :=
  { view := { currentPage := 1, itemsPerPage := 10, currentSortBy := "card_name",
              currentSortOrder := "asc", currentCollectionName := some "my_cards",
              currentSearchQuery := none }
    totalPages := 1
    content := [.card { id := "c1", card_name := "Pikachu", rarity := "Rare",
                        point_worth := 50, date_got_in_stock := "2024-01-01",
                        quantity := 3, hasImage := true }]
    errorMessage := none
    loadingVisible := false
    pagControls := [.button "Previous" 0 true, .pageText "Page 1 of 1", .button "Next" 2 true] }

/-- C4 counterexample: a refetch that fails with HTTP 500 while a previously
fetched non-empty card list is displayed clears the card display area — the
previously-good cards are not retained. -/
theorem fetchErrorClearsPreviousCards :
    goodState.content ≠ [] ∧
    (resolveFetchFailure 500 (some (.str "db unavailable")) (beginFetch goodState)).content = [] ∧
    (resolveFetchFailure 500 (some (.str "db unavailable")) (beginFetch goodState)).errorMessage
      = some "Failed to load cards. Error fetching cards. Status: 500, Server says: db unavailable" := by
  refine ⟨by decide, rfl, by decide⟩

/-- C4 amended: every fetch error path runs `displayError`, which shows the
message, hides the loading indicator, clears the card display area and
empties the pagination containers, whether or not data was displayed
before. -/
theorem displayErrorClearsDisplay (msg : String) (st : BrowserState) :
    (displayError msg st).content = [] ∧
    (displayError msg st).pagControls = [] ∧
    (displayError msg st).errorMessage = some msg ∧
    (displayError msg st).loadingVisible = false :=
  ⟨rfl, rfl, rfl, rfl⟩

/-- First page of the race scenario: one card, page 1 of 2. -/
def racePageOneResp : ListResponse :=
  { cards := some [{ id := "a1", card_name := "Alpha", rarity := "Common",
                     point_worth := 5, quantity := 1,
                     date_got_in_stock := "2024-01-01", image_url := none }]
    pagination := some { current_page := 1, total_pages := 2, total_items := 2, per_page := 1 } }

/-- Second page of the race scenario: one card, page 2 of 2. -/
def racePageTwoResp : ListResponse :=
  { cards := some [{ id := "b2", card_name := "Beta", rarity := "Rare",
                     point_worth := 9, quantity := 4,
                     date_got_in_stock := "2024-02-02", image_url := none }]
    pagination := some { current_page := 2, total_pages := 2, total_items := 2, per_page := 1 } }

/-- Initial browser state of the race scenario. -/
def raceStart : BrowserState :=
  { view := { currentPage := 1, itemsPerPage := 1, currentSortBy := "card_name",
              currentSortOrder := "asc", currentCollectionName := some "my_cards",
              currentSearchQuery := none }
    totalPages := 1, content := [], errorMessage := none,
    loadingVisible := false, pagControls := [] }

/-- The race execution: fetch A for page 1 begins; before it resolves the
Next button sets the page to 2 and fetch B begins; B resolves first with
page 2, then the stale A resolves with page 1. -/
def raceFinal : BrowserState :=
  resolveFetchSuccess racePageOneResp
    (resolveFetchSuccess racePageTwoResp
      (beginFetch { beginFetch raceStart with
                      view := paginationClick 2 (beginFetch raceStart).view }))

/-- The display after only the fresh fetch B, for comparison. -/
def freshOnlyFinal : BrowserState :=
  resolveFetchSuccess racePageTwoResp
    (beginFetch { beginFetch raceStart with
                    view := paginationClick 2 (beginFetch raceStart).view })

/-- C1: when two overlapping list fetches resolve out of order, the stale
page-1 response is applied after the fresh page-2 response — its card is
appended to the display area — so the final displayed cards are not those of
the most recently requested page. -/
theorem staleResponseAppliedAfterFresh :
    raceFinal.content
      = [.card { id := "b2", card_name := "Beta", rarity := "Rare", point_worth := 9,
                 date_got_in_stock := "2024-02-02", quantity := 4, hasImage := false },
         .card { id := "a1", card_name := "Alpha", rarity := "Common", point_worth := 5,
                 date_got_in_stock := "2024-01-01", quantity := 1, hasImage := false }] ∧
    raceFinal.content ≠ freshOnlyFinal.content ∧
    raceFinal.view.currentPage = 2 ∧
    raceFinal.totalPages = 2 := by
  refine ⟨by decide, by decide, by decide, by decide⟩

/-- A blank browser state, as after page load and before any fetch. -/
def blankState : BrowserState :=
  { view := { currentPage := 1, itemsPerPage := 10, currentSortBy := "card_name",
              currentSortOrder := "asc", currentCollectionName := some "my_cards",
              currentSearchQuery := none }
    totalPages := 1, content := [], errorMessage := none,
    loadingVisible := false, pagControls := [] }

/-- A successful zero-card response whose pagination metadata still reports
two total pages, as when the requested page lies beyond the result. -/
def zeroCardsPagedResp : ListResponse :=
  { cards := some []
    pagination := some { current_page := 1, total_pages := 2, total_items := 0, per_page := 10 } }

/-- C6 counterexample: a successful fetch returning zero cards but carrying
pagination metadata with positive `total_pages` renders the empty-state
message and still renders pagination controls, so the controls are not
absent for every zero-card response. -/
theorem zeroCardsMayRenderPagination :
    zeroCardsPagedResp.cards = some [] ∧
    (resolveFetchSuccess zeroCardsPagedResp (beginFetch blankState)).content
      = [.message "No cards found matching your criteria."] ∧
    (resolveFetchSuccess zeroCardsPagedResp (beginFetch blankState)).pagControls ≠ [] := by
  refine ⟨rfl, by decide, by decide⟩

/-- C6 amended: a successful fetch returning zero cards always replaces the
display area with the explicit empty-state message, and its pagination
controls are absent exactly when the response carries no pagination metadata
or that metadata reports `total_pages <= 0`; a zero-card response whose
metadata still reports a positive `total_pages` renders controls. -/
theorem zeroCardsRendering (st : BrowserState) (resp : ListResponse)
    (h : resp.cards = some []) :
    (resolveFetchSuccess resp st).content
      = [.message "No cards found matching your criteria."] ∧
    ((resolveFetchSuccess resp st).pagControls = [] ↔
      ∀ p, resp.pagination = some p → p.total_pages ≤ 0) := by
  obtain ⟨cards, pag⟩ := resp
  simp only at h
  subst h
  refine ⟨rfl, ?_⟩
  cases pag with
  | none =>
    simp only [resolveFetchSuccess, renderPaginationControls]
    constructor
    · intro _ p hp; exact absurd hp (by simp)
    · intro _; simp
  | some p =>
    show renderPaginationControls p = [] ↔ _
    by_cases hp : p.total_pages ≤ 0
    · simp only [renderPaginationControls, if_pos hp]
      constructor
      · intro _ q hq
        injection hq with hq
        subst hq
        exact hp
      · intro _; trivial
    · simp only [renderPaginationControls, if_neg hp]
      constructor
      · intro hc; exact absurd hc (by simp)
      · intro hall; exact absurd (hall p rfl) hp

/-- C6 witness: a zero-card response with no pagination metadata shows the
empty-state message and no pagination controls. -/
theorem zeroCardsRenderingWitness :
    (resolveFetchSuccess { cards := some [], pagination := none } blankState).content
      = [.message "No cards found matching your criteria."] ∧
    (resolveFetchSuccess { cards := some [], pagination := none } blankState).pagControls = [] := by
  have h := zeroCardsRendering blankState { cards := some [], pagination := none } rfl
  exact ⟨h.1, h.2.mpr (fun p hp => Option.noConfusion hp)⟩

/-- The server record returned by a successful quantity PATCH on card c1. -/
def patchedCard : Card :=
  { id := "c1", card_name := "Pikachu", rarity := "Rare", point_worth := 50,
    quantity := 4, date_got_in_stock := "2024-01-01", image_url := some "http://img" }

/-- A two-card collection array on the user-collection page. -/
def twoCards : List Card :=
  [{ id := "c1", card_name := "Pikachu", rarity := "Rare", point_worth := 50,
     quantity := 3, date_got_in_stock := "2024-01-01", image_url := some "http://img" },
   { id := "c2", card_name := "Eevee", rarity := "Common", point_worth := 10,
     quantity := 7, date_got_in_stock := "2024-03-03", image_url := none }]

/-- C8: under distinct displayed identifiers, a successful quantity update
whose response id matches the requested id updates exactly the matching
card — its displayed quantity becomes the server value — while every other
card, the order, and all other page state stay unchanged, and no list
refetch is begun; on the user-collection page the matching slot is replaced
wholesale by the server record with all other slots and the order kept. -/
theorem quantityMergeById (st : BrowserState) (documentId : String) (u : Card)
    (cs : List Card) (hid : u.id = documentId)
    (h1 : (contentCardIds st.content).Nodup)
    (h2 : (cs.map (fun c => c.id)).Nodup) :
    (updateQuantityApply documentId u st).1.content
      = st.content.map (quantityPatchedItem u.id u.quantity) ∧
    (updateQuantityApply documentId u st).1.view = st.view ∧
    (updateQuantityApply documentId u st).1.totalPages = st.totalPages ∧
    (updateQuantityApply documentId u st).1.pagControls = st.pagControls ∧
    (updateQuantityApply documentId u st).1.errorMessage = st.errorMessage ∧
    (updateQuantityApply documentId u st).2 = false ∧
    (updateCardApply documentId u cs).cards = cs.map (fun c => if c.id = u.id then u else c) := by
  subst hid
  exact ⟨patch_eq_map_of_nodup u.id u.quantity st.content h1, rfl, rfl, rfl, rfl, rfl,
         updateCardApply_eq_map_of_nodup u.id u cs h2⟩

/-- C8 witness: the PATCH response for c1 with quantity 4 applied to a page
displaying c1 with quantity 3, and merged into a two-card array. -/
theorem quantityMergeByIdWitness :
    (updateQuantityApply "c1" patchedCard goodState).1.content
      = goodState.content.map (quantityPatchedItem "c1" 4) ∧
    (updateQuantityApply "c1" patchedCard goodState).1.view = goodState.view ∧
    (updateQuantityApply "c1" patchedCard goodState).1.totalPages = goodState.totalPages ∧
    (updateQuantityApply "c1" patchedCard goodState).1.pagControls = goodState.pagControls ∧
    (updateQuantityApply "c1" patchedCard goodState).1.errorMessage = goodState.errorMessage ∧
    (updateQuantityApply "c1" patchedCard goodState).2 = false ∧
    (updateCardApply "c1" patchedCard twoCards).cards
      = twoCards.map (fun c => if c.id = "c1" then patchedCard else c) :=
  quantityMergeById goodState "c1" patchedCard twoCards rfl (by decide) (by decide)

/-- A server record whose id matches no displayed card. -/
def strayCard : Card :=
  { id := "zz", card_name := "Mew", rarity := "Legendary", point_worth := 500,
    quantity := 1, date_got_in_stock := "2024-05-05", image_url := none }

/-- C10: a successful update response whose card id is absent from the page
is silently dropped: the quantity handler leaves the whole browser state
unchanged and begins no refetch, and the user-collection handler keeps the
array as it is while still closing the modal and reporting success. -/
theorem unknownIdUpdateDropped (st : BrowserState) (documentId : String) (u : Card)
    (cs : List Card)
    (h1 : documentId ∉ contentCardIds st.content)
    (h2 : ∀ c ∈ cs, c.id ≠ documentId) :
    (updateQuantityApply documentId u st).1 = st ∧
    (updateQuantityApply documentId u st).2 = false ∧
    updateCardApply documentId u cs =
      { cards := cs, redisplayed := false, modalClosed := true,
        notice := "Card updated successfully!" } := by
  refine ⟨?_, rfl, ?_⟩
  · show ({ st with content := patchQuantityInContent documentId u.quantity st.content }
        : BrowserState) = st
    rw [patch_of_not_mem documentId u.quantity st.content h1]
  · unfold updateCardApply
    rw [findIdx_none_of_no_match documentId cs h2]

/-- C10 witness: a response for the absent id zz against the displayed page
and the two-card array. -/
theorem unknownIdUpdateDroppedWitness :
    (updateQuantityApply "zz" strayCard goodState).1 = goodState ∧
    (updateQuantityApply "zz" strayCard goodState).2 = false ∧
    updateCardApply "zz" strayCard twoCards =
      { cards := twoCards, redisplayed := false, modalClosed := true,
        notice := "Card updated successfully!" } :=
  unknownIdUpdateDropped goodState "zz" strayCard twoCards (by decide) (by decide)

end DreamCard
